import Mathlib

/-!
Shallow embedding of the Express instrumentation core
(`src/plugins/node/opentelemetry-instrumentation-express/src/express.ts`),
centred on `_applyPatch` and the wrapped layer handler it installs.

The embedding models:
- the per-request layers store (`req[_LAYERS_STORE_PROPERTY]`) as a `List String`;
- the route reconstruction (`filter(path => path !== '/').join('')`);
- the patch-attachment logic (`kLayerPatched` marker, arity-4 skip);
- the wrapped handler's synchronous body as a function emitting an ordered
  trace of observable events (span creation, timestamp capture, parent
  rename, span ends, listener bookkeeping, calls to the original handler);
- the two deferred end paths (the response finish listener
  `onResponseFinish` and the replaced continuation) as steps on a small
  closure state (`Session`), so that arbitrary interleavings of their
  firings can be quantified over.

External collaborators (the tracer, the ignore policy, the layer
classifier) are modelled as oracle inputs: whether an ambient span exists,
whether the layer is ignored, and the layer's type tag.
-/

namespace ExpressInstr

/-- Layer type tags produced by the layer classifier
(`ExpressLayerType` in types.ts): router, middleware, request handler. -/
inductive ExpressLayerType
  | ROUTER
  | MIDDLEWARE
  | REQUEST_HANDLER
deriving DecidableEq, Repr

/-- Observable actions performed by the wrapped handler and its hooks, in
program order.  `endSpan b` records a call to `span.end`: `b = true` means
the call passed the captured start timestamp (`span.end(startTime)`),
`b = false` means it passed no argument (`span.end()`).  `startSpan r`
records `tracer.startSpan` with `r` the value of the http-route attribute
(`route.length > 0 ? route : undefined`).  `captureTime` records the
`hrTime()` capture of the explicit start timestamp. -/
inductive Event
  | startSpan (httpRoute : Option String)
  | captureTime
  | updateParentName (newName : String)
  | endSpan (withStartTime : Bool)
  | removeFinishListener
  | addFinishListener
  | callOriginal
  | callCallback
deriving DecidableEq, Repr

/-- Request state visible to the wrapped handler: the private ordered
sequence of path segments (`req[_LAYERS_STORE_PROPERTY]`) and the HTTP
method (`req.method`). -/
structure Req where
  layersStore : List String
  method : String
deriving DecidableEq, Repr

/-- Modelled from the spec: `storeLayerPath` lives in `./utils`, which is
not part of the sources; the spec says "Push the mount-path fragment onto
the request's path-segment sequence (even if the fragment is
empty/undefined — an empty contribution still marks a stack frame
entry/exit pairing)".  An absent fragment therefore contributes the empty
string. -/
def storeLayerPath (store : List String) (layerPath : Option String) : List String :=
  store ++ [layerPath.getD ""]

/-- Route reconstruction, express.ts lines 204-206:
`req[_LAYERS_STORE_PROPERTY].filter(path => path !== '/').join('')`. -/
def reconstructRoute (store : List String) : String :=
  String.join (store.filter (fun path => path != "/"))

/-- The closure state shared by the wrapped handler's deferred hooks:
`spanHasEnded` (line 236), whether a function-typed argument was found and
replaced (lines 254-256), and the request's layers store as seen by the
continuation's pop (line 264). -/
structure Session where
  ended : Bool
  nextWrapped : Bool
  store : List String
deriving DecidableEq, Repr

/-- Result of the synchronous body of the wrapped handler: the ordered
event trace, the layers store afterwards, and the closure state handed to
the deferred hooks (`none` when the body bypassed instrumentation and
installed no hooks). -/
structure InvokeResult where
  events : List Event
  store : List String
  session : Option Session
deriving DecidableEq, Repr

/-- Synchronous body of the wrapped handler installed by `_applyPatch`
(express.ts lines 197-279).  `hasCurrentSpan` models
`plugin.tracer.getCurrentSpan() !== undefined`, `ignored` models
`isLayerIgnored(...)`, `hasCallback` models the presence of a
function-typed argument (`callbackIdx >= 0`), and `lt` is the layer type
tag from the classifier metadata. -/
def patchedHandlerSync (lt : ExpressLayerType) (layerPath : Option String)
    (req : Req) (hasCurrentSpan ignored hasCallback : Bool) : InvokeResult :=
  let store := storeLayerPath req.layersStore layerPath
  let route := reconstructRoute store
  if ignored then
    { events := [Event.callOriginal], store := store, session := none }
  else if hasCurrentSpan = false then
    { events := [Event.callOriginal], store := store, session := none }
  else
    let renames :=
      if lt = ExpressLayerType.REQUEST_HANDLER then
        [Event.updateParentName (req.method ++ " " ++ route)]
      else []
    let httpRoute := if route.length > 0 then some route else none
    let endNow :=
      if lt ≠ ExpressLayerType.MIDDLEWARE then [Event.endSpan true] else []
    { events := renames ++ [Event.startSpan httpRoute, Event.captureTime] ++ endNow
        ++ [Event.callOriginal, Event.addFinishListener],
      store := store,
      session := some { ended := lt ≠ ExpressLayerType.MIDDLEWARE,
                        nextWrapped := hasCallback,
                        store := store } }

/-- The `onResponseFinish` listener (express.ts lines 247-252): if the
span has not ended, mark it ended and call `span.end(startTime)`. -/
def onResponseFinish (s : Session) : Session × List Event :=
  if s.ended = false then
    ({ s with ended := true }, [Event.endSpan true])
  else (s, [])

/-- The replaced continuation (express.ts lines 257-268).  `isError`
models `arguments[0] instanceof Error`, `hasRoute` models the truthiness
of `req.route` at the moment the continuation fires.  If the span has not
ended: mark ended, remove the finish listener, call `span.end()` with no
timestamp.  Pop the layers store unless `req.route && error`.  Finally
invoke the original callback (bound to the tracing context). -/
def wrappedNext (isError hasRoute : Bool) (s : Session) : Session × List Event :=
  let (s1, endEvents) :=
    if s.ended = false then
      ({ s with ended := true }, [Event.removeFinishListener, Event.endSpan false])
    else (s, [])
  let s2 :=
    if !(hasRoute && isError) then { s1 with store := s1.store.dropLast } else s1
  (s2, endEvents ++ [Event.callCallback])

/-- A deferred hook firing after the synchronous body returned: the
response emitting `finish`, or the (possibly replaced) continuation being
invoked with given error/route status. -/
inductive Fire
  | finish
  | next (isError : Bool) (hasRoute : Bool)
deriving DecidableEq, Repr

/-- One deferred firing.  A `finish` event runs the listener; a `next`
invocation runs the replaced continuation when one was installed, and is
a no-op on the closure state otherwise (the raw framework continuation
touches neither the span nor the store). -/
def fireStep (s : Session) (f : Fire) : Session × List Event :=
  match f with
  | Fire.finish => onResponseFinish s
  | Fire.next isError hasRoute =>
      if s.nextWrapped then wrappedNext isError hasRoute s else (s, [])

/-- Run a sequence of deferred firings, accumulating their event traces. -/
def runFires (s : Session) : List Fire → Session × List Event
  | [] => (s, [])
  | f :: rest =>
      let step := fireStep s f
      let others := runFires step.1 rest
      (others.1, step.2 ++ others.2)

/-- The arguments of all `span.end` calls recorded in a trace, in order. -/
def spanEnds (evs : List Event) : List Bool :=
  evs.filterMap (fun e => match e with | Event.endSpan b => some b | _ => none)

/-- Number of `span.end` calls recorded in a trace. -/
def countEnds (evs : List Event) : Nat :=
  (spanEnds evs).length

/-- The http-route attributes of all `tracer.startSpan` calls in a trace. -/
def startedSpans (evs : List Event) : List (Option String) :=
  evs.filterMap (fun e => match e with | Event.startSpan r => some r | _ => none)

/-- The new names of all parent-span renames (`parent.updateName`) in a
trace, in order. -/
def renameEvents (evs : List Event) : List String :=
  evs.filterMap (fun e => match e with | Event.updateParentName n => some n | _ => none)

/-- Total number of `span.end` calls across one complete wrapped-handler
run inside a traced, non-ignored request: the synchronous body followed by
an arbitrary sequence of deferred firings. -/
def totalSpanEnds (lt : ExpressLayerType) (layerPath : Option String)
    (req : Req) (hasCallback : Bool) (fires : List Fire) : Nat :=
  let r := patchedHandlerSync lt layerPath req true false hasCallback
  countEnds r.events +
    (match r.session with
     | some s => countEnds (runFires s fires).2
     | none => 0)

/-- Whether, in a trace, a timestamp capture occurs strictly before the
first span creation (true iff the first of the two kinds of events to
occur is `captureTime`). -/
def capturedBeforeSpanCreation : List Event → Bool
  | [] => false
  | Event.captureTime :: _ => true
  | Event.startSpan _ :: _ => false
  | _ :: rest => capturedBeforeSpanCreation rest

/-- Whether a trace contains a `startSpan` immediately followed by
`captureTime`. -/
def captureImmediatelyAfterCreation : List Event → Bool
  | Event.startSpan _ :: Event.captureTime :: _ => true
  | _ :: rest => captureImmediatelyAfterCreation rest
  | [] => false

/-- A layer handler as seen by the patch: its declared parameter count
(`Function.length`) and the number of instrumentation wrappers currently
installed around it. -/
structure Handler where
  arity : Nat
  wrapDepth : Nat
deriving DecidableEq, Repr

/-- The wrap factory passed to `this._wrap(layer, 'handle', ...)`
(express.ts lines 194-197): an arity-4 original is returned unchanged;
otherwise the returned wrapper is a fresh 3-parameter function closing
over the original. -/
def wrapFactory (original : Handler) : Handler :=
  if original.arity = 4 then original
  else { arity := 3, wrapDepth := original.wrapDepth + 1 }

/-- An express layer as seen by `_applyPatch`: the `kLayerPatched` marker
and the `handle` slot. -/
structure Layer where
  kLayerPatched : Bool
  handle : Handler
deriving DecidableEq, Repr

/-- `_applyPatch` (express.ts lines 189-194): return immediately if the
layer is already marked patched; otherwise set the marker and wrap the
handle through the factory. -/
def applyPatch (layer : Layer) : Layer :=
  if layer.kLayerPatched = true then layer
  else { kLayerPatched := true, handle := wrapFactory layer.handle }

/-- Number of further `span.end` calls the ended flag still permits from a
closure state: zero once `spanHasEnded` is set, one before. -/
def endBudget (s : Session) : Nat :=
  if s.ended then 0 else 1

/-- Spec-side route definition, written from the spec's words: the
concatenation, in order, of all segments not equal to "/", empty when
there is none. -/
def routeSpec : List String → String
  | [] => ""
  | s :: rest => if s = "/" then routeSpec rest else s ++ routeSpec rest

theorem countEnds_append (a b : List Event) :
    countEnds (a ++ b) = countEnds a + countEnds b := by
  simp [countEnds, spanEnds, List.filterMap_append]

theorem fireStep_budget (s : Session) (f : Fire) :
    countEnds (fireStep s f).2 + endBudget (fireStep s f).1 ≤ endBudget s := by
  cases f with
  | finish =>
      by_cases he : s.ended = false <;>
        simp [fireStep, onResponseFinish, endBudget, he, countEnds, spanEnds]
  | next isError hasRoute =>
      by_cases hw : s.nextWrapped = true <;> by_cases he : s.ended = false <;>
        by_cases hr : (hasRoute && isError) = true <;>
          simp [fireStep, wrappedNext, endBudget, he, hw, hr, countEnds, spanEnds]

theorem runFires_budget (fires : List Fire) :
    ∀ s : Session,
      countEnds (runFires s fires).2 + endBudget (runFires s fires).1 ≤ endBudget s := by
  induction fires with
  | nil =>
      intro s
      simp [runFires, countEnds, spanEnds]
  | cons f rest ih =>
      intro s
      have h1 := fireStep_budget s f
      have h2 := ih (fireStep s f).1
      simp only [runFires, countEnds_append]
      omega

theorem patchedHandlerSync_session (lt : ExpressLayerType) (lp : Option String)
    (req : Req) (hasCallback : Bool) :
    (patchedHandlerSync lt lp req true false hasCallback).session =
      some { ended := lt ≠ ExpressLayerType.MIDDLEWARE,
             nextWrapped := hasCallback,
             store := storeLayerPath req.layersStore lp } := by
  cases lt <;> simp [patchedHandlerSync]

theorem patchedHandlerSync_countEnds (lt : ExpressLayerType) (lp : Option String)
    (req : Req) (hasCallback : Bool) :
    countEnds (patchedHandlerSync lt lp req true false hasCallback).events =
      (if lt = ExpressLayerType.MIDDLEWARE then 0 else 1) := by
  cases lt <;> simp [patchedHandlerSync, countEnds, spanEnds]

theorem join_cons (a : String) (l : List String) :
    String.join (a :: l) = a ++ String.join l := by
  simp only [String.join_eq, List.map_cons, List.flatten_cons]
  ext
  simp [String.data_append]

theorem reconstructRoute_eq_routeSpec (store : List String) :
    reconstructRoute store = routeSpec store := by
  induction store with
  | nil => rfl
  | cons s rest ih =>
      unfold reconstructRoute at ih ⊢
      rw [List.filter_cons]
      by_cases h : s = "/"
      · rw [if_neg (by simp [h]), routeSpec, if_pos h]
        exact ih
      · rw [if_pos (by simp [h]), join_cons, routeSpec, if_neg h, ih]

/-- C1: every invocation of the replaced continuation pops the last
element of the request's path-segment sequence, unless its first argument
is an Error and the request already has a matched route, in which case the
sequence (hence its length) is unchanged by that invocation. -/
theorem claim_C1_continuation_pop (isError hasRoute : Bool) (s : Session) :
    ((wrappedNext isError hasRoute s).1).store =
      (if hasRoute && isError then s.store else s.store.dropLast) := by
  unfold wrappedNext
  by_cases he : s.ended = false <;> by_cases hr : (hasRoute && isError) = true <;>
    simp [he, hr]

/-- C2: the reconstructed route equals the concatenation, in order, of all
segments not equal to "/" (`routeSpec`), and is empty when no such segment
exists; in particular on ["/api", "/users", "/:id"] it is
"/api/users/:id". -/
theorem claim_C2_route_reconstruction :
    (∀ store : List String, reconstructRoute store = routeSpec store) ∧
    reconstructRoute [] = "" ∧
    reconstructRoute ["/", "/"] = "" ∧
    reconstructRoute ["/api", "/users", "/:id"] = "/api/users/:id" :=
  ⟨reconstructRoute_eq_routeSpec, by decide, by decide, by decide⟩

/-- C6: applying `applyPatch` twice to the same layer is the same as
applying it once (the second application sees the `kLayerPatched` marker
and returns without wrapping), and on a fresh layer the double application
leaves exactly one added interception on a wrappable handler (none on an
arity-4 handler, which the factory never wraps). -/
theorem claim_C6_attach_idempotent (l : Layer) (h : Handler) :
    applyPatch (applyPatch l) = applyPatch l ∧
    (applyPatch (applyPatch { kLayerPatched := false, handle := h })).handle.wrapDepth =
      (if h.arity = 4 then h.wrapDepth else h.wrapDepth + 1) := by
  constructor
  · unfold applyPatch
    by_cases hp : l.kLayerPatched = true <;> simp [hp]
  · unfold applyPatch wrapFactory
    by_cases ha : h.arity = 4 <;> simp [ha]

/-- C3 counterexample: with no ambient span, layer path "/api" and an
initially empty layers store, the wrapped handler's invocation leaves the
store at length 1 while it was length 0 before — the claim's "same length
after the whole call as before it" fails — even though, as the claim also
asserts, zero spans are created. -/
theorem claim_C3_counterexample :
    (patchedHandlerSync ExpressLayerType.MIDDLEWARE (some "/api")
        { layersStore := [], method := "GET" } false false true).store = ["/api"] ∧
    (patchedHandlerSync ExpressLayerType.MIDDLEWARE (some "/api")
        { layersStore := [], method := "GET" } false false true).store.length ≠
      ([] : List String).length ∧
    startedSpans (patchedHandlerSync ExpressLayerType.MIDDLEWARE (some "/api")
        { layersStore := [], method := "GET" } false false true).events = [] := by
  decide

/-- C3 (amended): when no ambient span exists, the invocation creates zero
spans, ends none, installs no deferred hooks, and leaves the layers store
equal to the entry store with the layer's path fragment appended — the
segment pushed on entry is not popped within that call, so the length
grows by one rather than being preserved. -/
theorem claim_C3_no_ambient_span (lt : ExpressLayerType) (lp : Option String)
    (req : Req) (ignored hasCallback : Bool) :
    startedSpans (patchedHandlerSync lt lp req false ignored hasCallback).events = [] ∧
    countEnds (patchedHandlerSync lt lp req false ignored hasCallback).events = 0 ∧
    (patchedHandlerSync lt lp req false ignored hasCallback).session = none ∧
    (patchedHandlerSync lt lp req false ignored hasCallback).store =
      storeLayerPath req.layersStore lp ∧
    (patchedHandlerSync lt lp req false ignored hasCallback).store.length =
      req.layersStore.length + 1 := by
  unfold patchedHandlerSync
  by_cases hi : ignored = true <;>
    simp [hi, startedSpans, countEnds, spanEnds, storeLayerPath]

/-- C4 counterexample: on a concrete middleware invocation that reaches
span creation (exactly one span is started), no timestamp capture occurs
before the span-creation call — `hrTime()` (line 235) runs only after
`tracer.startSpan` (line 232), so the claim's "captured before the
span-creation call" fails. -/
theorem claim_C4_counterexample :
    capturedBeforeSpanCreation (patchedHandlerSync ExpressLayerType.MIDDLEWARE
        (some "/mw") { layersStore := [], method := "GET" } true false true).events
      = false ∧
    (startedSpans (patchedHandlerSync ExpressLayerType.MIDDLEWARE
        (some "/mw") { layersStore := [], method := "GET" } true false true).events).length
      = 1 := by
  decide

/-- C4 (amended): in every invocation that reaches span creation, the
explicit start timestamp is captured immediately AFTER the span-creation
call (never before it), so the creation overhead precedes the captured
timestamp and is thereby excluded from any duration measured from it. -/
theorem claim_C4_capture_after_creation (lt : ExpressLayerType) (lp : Option String)
    (req : Req) (hasCallback : Bool) :
    captureImmediatelyAfterCreation
      (patchedHandlerSync lt lp req true false hasCallback).events = true ∧
    capturedBeforeSpanCreation
      (patchedHandlerSync lt lp req true false hasCallback).events = false := by
  unfold patchedHandlerSync
  cases lt <;> simp [captureImmediatelyAfterCreation, capturedBeforeSpanCreation]

/-- C5: across one complete run of the wrapped handler inside a traced,
non-ignored request — the synchronous body followed by any sequence of
finish-event and continuation firings — `span.end` is called at most once:
the ended flag makes the immediate end, the finish listener and the
replaced continuation mutually exclusive, and every later end attempt a
no-op. -/
theorem claim_C5_end_at_most_once (lt : ExpressLayerType) (lp : Option String)
    (req : Req) (hasCallback : Bool) (fires : List Fire) :
    totalSpanEnds lt lp req hasCallback fires ≤ 1 := by
  have hopen := runFires_budget fires
    { ended := false, nextWrapped := hasCallback, store := storeLayerPath req.layersStore lp }
  have hclosed := runFires_budget fires
    { ended := true, nextWrapped := hasCallback, store := storeLayerPath req.layersStore lp }
  simp [endBudget] at hopen hclosed
  unfold totalSpanEnds
  simp only [patchedHandlerSync_session, patchedHandlerSync_countEnds]
  cases lt <;> simp <;> omega

/-- C8: inside a traced, non-ignored request, a non-middleware layer's
span is ended during the synchronous body with the captured start
timestamp as argument and the ended flag set, while a middleware layer's
span is left open there (no end call in the body, flag unset). -/
theorem claim_C8_end_policy_by_type (lt : ExpressLayerType) (lp : Option String)
    (req : Req) (hasCallback : Bool) :
    spanEnds (patchedHandlerSync lt lp req true false hasCallback).events =
      (if lt = ExpressLayerType.MIDDLEWARE then [] else [true]) ∧
    (patchedHandlerSync lt lp req true false hasCallback).session =
      some { ended := lt ≠ ExpressLayerType.MIDDLEWARE,
             nextWrapped := hasCallback,
             store := storeLayerPath req.layersStore lp } := by
  unfold patchedHandlerSync
  cases lt <;> simp [spanEnds]

/-- C9: inside a traced, non-ignored request, the ambient parent span is
renamed exactly when the layer type is request-handler, to the HTTP
method, a space, and the reconstructed route; under entry store ["/items"]
and layer path "/:id" with method GET the new name is "GET /items/:id". -/
theorem claim_C9_parent_rename (lt : ExpressLayerType) (lp : Option String)
    (req : Req) (hasCallback : Bool) :
    (renameEvents (patchedHandlerSync lt lp req true false hasCallback).events =
      (if lt = ExpressLayerType.REQUEST_HANDLER then
        [req.method ++ " " ++ reconstructRoute (storeLayerPath req.layersStore lp)]
      else [])) ∧
    renameEvents (patchedHandlerSync ExpressLayerType.REQUEST_HANDLER (some "/:id")
        { layersStore := ["/items"], method := "GET" } true false true).events =
      ["GET /items/:id"] := by
  constructor
  · unfold patchedHandlerSync
    cases lt <;> simp [renameEvents]
  · decide

/-- C10: the two deferred end paths use different timestamps: when the
finish listener is the one that ends the span it calls
`span.end(startTime)` (argument `true`: the captured start timestamp),
whereas when the replaced continuation ends it it calls `span.end()` with
no timestamp (argument `false`); when the flag is already set neither path
calls `span.end` at all. -/
theorem claim_C10_end_time_arguments (isError hasRoute : Bool) (s : Session) :
    spanEnds (onResponseFinish s).2 = (if s.ended then [] else [true]) ∧
    spanEnds (wrappedNext isError hasRoute s).2 = (if s.ended then [] else [false]) := by
  unfold onResponseFinish wrappedNext
  by_cases he : s.ended = true <;> by_cases hr : (hasRoute && isError) = true <;>
    simp [he, hr, spanEnds]

/-- C7: for every layer whose handler takes four parameters (error-handler
arity), `applyPatch` leaves the handler slot exactly as it was — the wrap
factory returns the original — so invoking the layer runs the identical
original handler. -/
theorem claim_C7_arity4_skipped (b : Bool) (w : Nat) :
    (applyPatch { kLayerPatched := b, handle := { arity := 4, wrapDepth := w } }).handle =
      { arity := 4, wrapDepth := w } := by
  unfold applyPatch wrapFactory
  by_cases hb : b = true <;> simp [hb]

end ExpressInstr
